import Mathlib

/-!
A shallow embedding of the dental-ai-chatbot backend (backend/server.js) and
the database schema it runs against (README Step 4 schema).

The Express handlers `POST /api/chatbot/message` and `POST /api/chatbot/confirm`
and the helpers `upsertUser`, `ensureSession`, `logMessage` are modelled as pure
functions over an explicit database state `DB`.  SQL effects are translated row
by row:

* `users` has a UNIQUE constraint on `email`; `INSERT ... ON CONFLICT (email)
  DO UPDATE SET name=EXCLUDED.name RETURNING id` becomes a find-or-append on
  the user list.
* `chat_sessions`, `chat_messages`, `appointments` are lists of rows; SERIAL
  ids are modelled by explicit `next...Id` counters.
* Timestamps are modelled by the `scheduled_at` strings the handler passes to
  the database; two slots are the same exactly when the strings are equal.
  JavaScript's `Date.parse` is an environment function of the runtime, so the
  handlers are parameterised over `dateParse : String → Option Int`, with
  `none` standing for `NaN`.
* JavaScript truthiness of `req.body` string fields (`!message`,
  `!session_id || !scheduled_at`, `if(!sessionToken)`) is `strTruthy`:
  `undefined`/absent is `none`, and the empty string is falsy too.
* The external interpreter call (`fetch` to the python service followed by
  `r.json()`) is a parameter `InterpOutcome`: either the parsed JSON payload,
  or `threw` (unreachable / timeout / non-JSON body), which in the source
  jumps to the handler's `catch` block.
* The appointment `INSERT` in the confirm handler runs against the schema's
  partial unique index `uniq_appointments_time ON appointments (scheduled_at)
  WHERE status = 'confirmed'`; a storage-level failure of that insert (such as
  a uniqueness violation raised by a concurrent committer) is modelled by a
  boolean `insertThrows` — when true the insert raises and control reaches the
  handler's outer `catch`.
-/

namespace DentalChatbot

/-- JavaScript truthiness of an optional string request field: `undefined`
(absent) and the empty string are falsy, every other string is truthy. -/
def strTruthy : Option String → Bool
  | none => false
  | some s => s != ""

/-- A row of the `users` table (columns used by server.js). -/
structure UserRow where
  id : Nat
  email : String
  name : String
deriving Repr, DecidableEq

/-- A row of the `chat_sessions` table. -/
structure SessionRow where
  id : Nat
  userId : Nat
  token : String
deriving Repr, DecidableEq

/-- The `meta` JSONB column of `chat_messages`, restricted to the shapes
server.js actually writes. -/
inductive MsgMeta where
  /-- `{}` — the default `meta` of `logMessage`. -/
  | empty : MsgMeta
  /-- `{ appointment_candidate, intent, needs_confirmation }` written on the
  assistant reply when the interpreter returned a candidate. -/
  | candidate (appointmentCandidate : String) (intent : Option String)
      (needsConfirmation : Bool) : MsgMeta
  /-- `{ intent }` written on the assistant reply otherwise. -/
  | intentOnly (intent : String) : MsgMeta
  /-- `{ appointment_id, status }` written after a successful confirm. -/
  | appointmentRef (appointmentId : Nat) (status : String) : MsgMeta
deriving Repr, DecidableEq

/-- A row of the `chat_messages` table. -/
structure MessageRow where
  userId : Nat
  sessionToken : Option String
  role : String
  content : String
  meta : MsgMeta
deriving Repr, DecidableEq

/-- A row of the `appointments` table.  `scheduledAt` is the timestamp as the
string the handler bound to the insert parameter. -/
structure ApptRow where
  id : Nat
  userId : Nat
  scheduledAt : String
  status : String
  notes : String
deriving Repr, DecidableEq

/-- The database state seen by the backend. -/
structure DB where
  users : List UserRow
  nextUserId : Nat
  sessions : List SessionRow
  nextSessionId : Nat
  messages : List MessageRow
  appointments : List ApptRow
  nextApptId : Nat
deriving Repr, DecidableEq

/-- A fresh database, with SERIAL counters starting at 1. -/
def emptyDB : DB := ⟨[], 1, [], 1, [], [], 1⟩

/-- `upsertUser(sub)`: derives `email = sub + "@demo.local"` and runs
`INSERT INTO users ... ON CONFLICT (email) DO UPDATE SET name=EXCLUDED.name
RETURNING id`.  On conflict the existing row keeps its id and gets the new
name; otherwise a fresh row is appended.  Returns the row id. -/
def upsertUser (sub : String) (db : DB) : Nat × DB :=
  let email := sub ++ "@demo.local"
  let name := "Demo User"
  match db.users.find? (fun u => u.email == email) with
  | some u =>
      (u.id,
       { db with users :=
           db.users.map (fun r => if r.email == email then { r with name := name } else r) })
  | none =>
      (db.nextUserId,
       { db with
           users := db.users ++ [⟨db.nextUserId, email, name⟩],
           nextUserId := db.nextUserId + 1 })

/-- `ensureSession(userId, sessionToken)`: returns `null` if the token is
falsy; otherwise `SELECT id FROM chat_sessions WHERE session_token=$1` and, if
no row matches, inserts a new session bound to `userId`. -/
def ensureSession (userId : Nat) (sessionToken : Option String) (db : DB) :
    Option Nat × DB :=
  if !(strTruthy sessionToken) then (none, db)
  else
    let t := sessionToken.getD ""
    match db.sessions.find? (fun s => s.token == t) with
    | some s => (some s.id, db)
    | none =>
        (some db.nextSessionId,
         { db with
             sessions := db.sessions ++ [⟨db.nextSessionId, userId, t⟩],
             nextSessionId := db.nextSessionId + 1 })

/-- `logMessage({userId, sessionToken, role, content, meta})`: a plain insert
into `chat_messages`. -/
def logMessage (userId : Nat) (sessionToken : Option String) (role content : String)
    (meta : MsgMeta) (db : DB) : DB :=
  { db with messages := db.messages ++ [⟨userId, sessionToken, role, content, meta⟩] }

/-- The fields of the python service's JSON payload read by the handler. -/
structure PyPayload where
  reply : Option String
  appointment_candidate : Option String
  intent : Option String
  needs_confirmation : Option Bool
deriving Repr, DecidableEq

/-- The parsed `data` object: top-level fields plus the optional nested
`data.data` object the handler also probes (`data?.data?.reply` etc.). -/
structure PyData where
  top : PyPayload
  nested : Option PyPayload
deriving Repr, DecidableEq

/-- Outcome of `fetch(PY_SERVICE_URL/simulate)` followed by `r.json()`:
either the parsed payload, or a thrown error (service unreachable, timeout,
non-JSON body), which lands in the handler's `catch`. -/
inductive InterpOutcome where
  | threw : InterpOutcome
  | json (d : PyData) : InterpOutcome
deriving Repr, DecidableEq

/-- JavaScript `a || b` on two optional strings: `b` when `a` is falsy. -/
def jsOrStr (a b : Option String) : Option String :=
  if strTruthy a then a else b

/-- `data?.reply || data?.data?.reply || ''` — the assistant content. -/
def assistantContent (d : PyData) : String :=
  (jsOrStr d.top.reply (jsOrStr (d.nested.bind PyPayload.reply) (some ""))).getD ""

/-- `data?.appointment_candidate || data?.data?.appointment_candidate`. -/
def candidateOf (d : PyData) : Option String :=
  jsOrStr d.top.appointment_candidate (d.nested.bind PyPayload.appointment_candidate)

/-- `data?.intent || data?.data?.intent`. -/
def intentOf (d : PyData) : Option String :=
  jsOrStr d.top.intent (d.nested.bind PyPayload.intent)

/-- `data?.needs_confirmation ?? data?.data?.needs_confirmation ?? false` —
nullish coalescing, so `false` does not fall through. -/
def needsConfirmationOf (d : PyData) : Bool :=
  match d.top.needs_confirmation with
  | some b => b
  | none => ((d.nested.bind PyPayload.needs_confirmation)).getD false

/-- The `meta` object server.js attaches to the assistant reply. -/
def assistantMeta (d : PyData) : MsgMeta :=
  if strTruthy (candidateOf d) then
    .candidate ((candidateOf d).getD "") (intentOf d) (needsConfirmationOf d)
  else
    .intentOnly ((jsOrStr (intentOf d) (some "chat")).getD "chat")

/-- Request body of `POST /api/chatbot/message`. -/
structure MessageReq where
  message : Option String
  session_id : Option String
deriving Repr, DecidableEq

/-- Responses of the message handler. -/
inductive MsgResult where
  /-- 400 `{ error: 'missing message' }`. -/
  | badRequest : MsgResult
  /-- 200 `{ ok: true, data }`. -/
  | ok (d : PyData) : MsgResult
  /-- 500 `{ error: 'failed to reach python service' }`. -/
  | serverError : MsgResult
deriving Repr, DecidableEq

/-- `POST /api/chatbot/message` (server.js lines 95–133), for the
authenticated subject `sub` and interpreter outcome `interp`. -/
def messageHandler (sub : String) (req : MessageReq) (interp : InterpOutcome)
    (db : DB) : MsgResult × DB :=
  if !(strTruthy req.message) then (.badRequest, db)
  else
    let m := req.message.getD ""
    let r1 := upsertUser sub db
    let userId := r1.1
    let r2 := ensureSession userId req.session_id r1.2
    let db3 := logMessage userId req.session_id "user" m .empty r2.2
    match interp with
    | .threw => (.serverError, db3)
    | .json d =>
        let db4 := logMessage userId req.session_id "assistant"
          (assistantContent d) (assistantMeta d) db3
        (.ok d, db4)

/-- Request body of `POST /api/chatbot/confirm`.  `confirm` is the boolean
flag; an absent flag is falsy and behaves as `false`. -/
structure ConfirmReq where
  session_id : Option String
  scheduled_at : Option String
  confirm : Bool
deriving Repr, DecidableEq

/-- Responses of the confirm handler. -/
inductive ConfirmResult where
  /-- 400 `{ ok:false, error:'bad_request', message }`. -/
  | badRequest (message : String) : ConfirmResult
  /-- 200 `{ ok:true, status:'declined' }`. -/
  | declined : ConfirmResult
  /-- 409 `{ ok:false, error:'conflict', ... }`. -/
  | conflict : ConfirmResult
  /-- 200 `{ ok:true, status:'confirmed', appointment }`. -/
  | confirmed (appointmentId : Nat) : ConfirmResult
  /-- 500 `{ ok:false, error:'server_error', ... }`. -/
  | serverError : ConfirmResult
deriving Repr, DecidableEq

/-- The pre-check `SELECT 1 FROM appointments WHERE scheduled_at = $1 AND
status = 'confirmed' LIMIT 1`, as a boolean: is some confirmed appointment
already stored at slot `s`? -/
def conflictCheck (db : DB) (s : String) : Bool :=
  db.appointments.any (fun a => a.scheduledAt == s && a.status == "confirmed")

/-- `POST /api/chatbot/confirm` (server.js lines 136–196).  `dateParse` is the
runtime's `Date.parse` (with `none` for `NaN`); `insertThrows` models a
storage-level error raised by the appointment `INSERT` (for example the
partial unique index `uniq_appointments_time` rejecting the row), which the
source's `try`/`catch` turns into the 500 response.  The trailing
`logMessage` is wrapped in its own `try {} catch {}` in the source, so its
failure is invisible; it is modelled as succeeding. -/
def confirmHandler (dateParse : String → Option Int) (sub : String)
    (req : ConfirmReq) (insertThrows : Bool) (db : DB) : ConfirmResult × DB :=
  if !(strTruthy req.session_id) || !(strTruthy req.scheduled_at) then
    (.badRequest "missing session_id or scheduled_at", db)
  else
    let s := req.scheduled_at.getD ""
    match dateParse s with
    | none => (.badRequest "scheduled_at must be ISO8601", db)
    | some _ =>
      let r1 := upsertUser sub db
      let userId := r1.1
      let r2 := ensureSession userId req.session_id r1.2
      let db2 := r2.2
      if !req.confirm then (.declined, db2)
      else if conflictCheck db2 s then (.conflict, db2)
      else if insertThrows then (.serverError, db2)
      else
        let appt : ApptRow := ⟨db2.nextApptId, userId, s, "confirmed", "Booked via chatbot"⟩
        let db3 := { db2 with
          appointments := db2.appointments ++ [appt],
          nextApptId := db2.nextApptId + 1 }
        let db4 := logMessage userId req.session_id "assistant"
          ("Confirmed your appointment for " ++ s ++ ".")
          (.appointmentRef appt.id "confirmed") db3
        (.confirmed appt.id, db4)

/-- The confirmed appointment rows stored at slot `s`. -/
def confirmedAtL (l : List ApptRow) (s : String) : List ApptRow :=
  l.filter (fun a => a.scheduledAt == s && a.status == "confirmed")

/-- At most one confirmed appointment row per slot, over a row list. -/
def atMostOneConfirmedL (l : List ApptRow) : Prop :=
  ∀ s, (confirmedAtL l s).length ≤ 1

/-- The system's hard consistency invariant: at most one `confirmed`
appointment per scheduled timestamp, globally. -/
def atMostOneConfirmed (db : DB) : Prop :=
  atMostOneConfirmedL db.appointments

/-- A store with two users and one session owned by the first user; exercises
`ensureSession` when the second user presents the first user's token. -/
def dbTwoUsers : DB :=
  { users := [⟨1, "alice@demo.local", "Demo User"⟩, ⟨2, "bob@demo.local", "Demo User"⟩],
    nextUserId := 3,
    sessions := [⟨1, 1, "tok-1"⟩],
    nextSessionId := 2,
    messages := [],
    appointments := [],
    nextApptId := 1 }

/-! ### Frame lemmas for the DB helpers -/

theorem upsertUser_appointments (sub : String) (db : DB) :
    (upsertUser sub db).2.appointments = db.appointments := by
  unfold upsertUser
  dsimp only
  split <;> rfl

theorem upsertUser_messages (sub : String) (db : DB) :
    (upsertUser sub db).2.messages = db.messages := by
  unfold upsertUser
  dsimp only
  split <;> rfl

theorem ensureSession_appointments (userId : Nat) (tok : Option String) (db : DB) :
    (ensureSession userId tok db).2.appointments = db.appointments := by
  unfold ensureSession
  dsimp only
  split
  · rfl
  · split <;> rfl

theorem ensureSession_messages (userId : Nat) (tok : Option String) (db : DB) :
    (ensureSession userId tok db).2.messages = db.messages := by
  unfold ensureSession
  dsimp only
  split
  · rfl
  · split <;> rfl

theorem conflictCheck_congr {db db' : DB} (s : String)
    (h : db'.appointments = db.appointments) :
    conflictCheck db' s = conflictCheck db s := by
  unfold conflictCheck
  rw [h]

/-- Shared shape of the decline branch: with both fields truthy, a parseable
timestamp and `confirm` falsy, the handler acknowledges after the user upsert
and session ensure. -/
theorem confirmHandler_decline_eq (dateParse : String → Option Int)
    (sub : String) (req : ConfirmReq) (insertThrows : Bool) (db : DB) (t : Int)
    (hsid : strTruthy req.session_id = true)
    (hsat : strTruthy req.scheduled_at = true)
    (hp : dateParse (req.scheduled_at.getD "") = some t)
    (hc : req.confirm = false) :
    confirmHandler dateParse sub req insertThrows db
      = (.declined,
         (ensureSession (upsertUser sub db).1 req.session_id (upsertUser sub db).2).2) := by
  unfold confirmHandler
  simp [hsid, hsat, hp, hc]

/-! ### C10 — missing fields are rejected before any read or write -/

/-- C10: a confirm-or-decline call with a missing `session_id` or a missing
`scheduled_at` fails with the `bad_request` validation error and leaves the
database untouched, for either value of the `confirm` flag. -/
theorem confirm_missing_fields_rejected (dateParse : String → Option Int)
    (sub : String) (req : ConfirmReq) (insertThrows : Bool) (db : DB)
    (h : req.session_id = none ∨ req.scheduled_at = none) :
    confirmHandler dateParse sub req insertThrows db
      = (.badRequest "missing session_id or scheduled_at", db) := by
  unfold confirmHandler
  rcases h with h | h <;> simp [h, strTruthy]

/-- Witness for `confirm_missing_fields_rejected` at a concrete request. -/
theorem confirm_missing_fields_rejected_witness :
    confirmHandler (fun _ => some 0) "user_1"
        ⟨none, some "2025-06-02T10:00:00Z", true⟩ false emptyDB
      = (.badRequest "missing session_id or scheduled_at", emptyDB) :=
  confirm_missing_fields_rejected _ _ _ _ _ (Or.inl rfl)

/-! ### C5 — a non-parseable timestamp is a validation error with no write -/

/-- C5: a confirm call whose `scheduled_at` does not parse as a timestamp
(`Date.parse` gives `NaN`) fails with a validation error and performs no
write: the returned state is the input state. -/
theorem confirm_unparseable_timestamp_no_write
    (dateParse : String → Option Int) (sub : String) (req : ConfirmReq)
    (insertThrows : Bool) (db : DB)
    (hp : dateParse (req.scheduled_at.getD "") = none) :
    ∃ msg, confirmHandler dateParse sub req insertThrows db
      = (.badRequest msg, db) := by
  unfold confirmHandler
  split
  · exact ⟨_, rfl⟩
  · dsimp only
    rw [hp]
    exact ⟨_, rfl⟩

/-- Witness for `confirm_unparseable_timestamp_no_write` with a parse
function rejecting the concrete input. -/
theorem confirm_unparseable_timestamp_witness :
    ∃ msg, confirmHandler (fun _ => none) "user_1"
        ⟨some "sess-1", some "not-a-date", true⟩ false emptyDB
      = (.badRequest msg, emptyDB) :=
  confirm_unparseable_timestamp_no_write _ _ _ _ _ rfl

/-! ### C6 — an empty or missing message is rejected before persistence -/

/-- C6: a message call whose `message` field is missing or empty is rejected
with the 400 validation error before any persistence: no user, session, or
message row is created or updated. -/
theorem message_empty_rejected (sub : String) (req : MessageReq)
    (interp : InterpOutcome) (db : DB)
    (h : strTruthy req.message = false) :
    messageHandler sub req interp db = (.badRequest, db) := by
  unfold messageHandler
  simp [h]

/-- Witness for `message_empty_rejected` on an empty message. -/
theorem message_empty_rejected_witness :
    messageHandler "user_1" ⟨some "", some "sess-1"⟩ .threw emptyDB
      = (.badRequest, emptyDB) :=
  message_empty_rejected _ _ _ _ rfl

/-! ### C9 — decline performs only the user upsert and session ensure -/

/-- C9: a decline call with a present session id and parseable timestamp
acknowledges only after the user upsert and session ensure — the returned
state is exactly the state those two produce — and writes no appointment row
and no message row. -/
theorem decline_upserts_user_session_only
    (dateParse : String → Option Int) (sub : String) (req : ConfirmReq)
    (insertThrows : Bool) (db : DB) (t : Int)
    (hsid : strTruthy req.session_id = true)
    (hsat : strTruthy req.scheduled_at = true)
    (hp : dateParse (req.scheduled_at.getD "") = some t)
    (hc : req.confirm = false) :
    confirmHandler dateParse sub req insertThrows db
      = (.declined,
         (ensureSession (upsertUser sub db).1 req.session_id (upsertUser sub db).2).2) ∧
    (confirmHandler dateParse sub req insertThrows db).2.appointments = db.appointments ∧
    (confirmHandler dateParse sub req insertThrows db).2.messages = db.messages := by
  have heq := confirmHandler_decline_eq dateParse sub req insertThrows db t hsid hsat hp hc
  refine ⟨heq, ?_, ?_⟩
  · rw [heq]
    exact (ensureSession_appointments _ _ _).trans (upsertUser_appointments _ _)
  · rw [heq]
    exact (ensureSession_messages _ _ _).trans (upsertUser_messages _ _)

/-- Witness for `decline_upserts_user_session_only` at a concrete request. -/
theorem decline_upserts_user_session_only_witness :
    (confirmHandler (fun _ => some 0) "user_1"
        ⟨some "sess-1", some "2025-06-02T10:00:00Z", false⟩ false emptyDB).2.appointments
      = emptyDB.appointments :=
  (decline_upserts_user_session_only (fun _ => some 0) "user_1"
      ⟨some "sess-1", some "2025-06-02T10:00:00Z", false⟩ false emptyDB 0
      rfl rfl rfl rfl).2.1

/-! ### C3 — decline succeeds and spares appointments, but logs nothing -/

/-- C3 counterexample: a decline call (valid session id and timestamp) on the
fresh store succeeds, yet the message log stays empty — no transcript entry
recording the rejection is appended, contradicting the claim. -/
theorem decline_no_transcript_counterexample :
    (confirmHandler (fun _ => some 0) "user_1"
        ⟨some "sess-1", some "2025-06-02T10:00:00Z", false⟩ false emptyDB).1
      = .declined ∧
    (confirmHandler (fun _ => some 0) "user_1"
        ⟨some "sess-1", some "2025-06-02T10:00:00Z", false⟩ false emptyDB).2.messages
      = [] := by
  constructor <;> rfl

/-- C3 amended: a decline call with a present session id and parseable
timestamp always succeeds with status `declined` and never creates, updates,
or deletes an Appointment row — but it appends no transcript entry either:
the message log is unchanged.  (Declines with a missing or non-parseable
field fail validation instead.) -/
theorem decline_succeeds_without_transcript
    (dateParse : String → Option Int) (sub : String) (req : ConfirmReq)
    (insertThrows : Bool) (db : DB) (t : Int)
    (hsid : strTruthy req.session_id = true)
    (hsat : strTruthy req.scheduled_at = true)
    (hp : dateParse (req.scheduled_at.getD "") = some t)
    (hc : req.confirm = false) :
    (confirmHandler dateParse sub req insertThrows db).1 = .declined ∧
    (confirmHandler dateParse sub req insertThrows db).2.appointments = db.appointments ∧
    (confirmHandler dateParse sub req insertThrows db).2.messages = db.messages := by
  have heq := confirmHandler_decline_eq dateParse sub req insertThrows db t hsid hsat hp hc
  rw [heq]
  refine ⟨rfl, ?_, ?_⟩
  · exact (ensureSession_appointments _ _ _).trans (upsertUser_appointments _ _)
  · exact (ensureSession_messages _ _ _).trans (upsertUser_messages _ _)

/-- Witness for `decline_succeeds_without_transcript` at a concrete request. -/
theorem decline_succeeds_without_transcript_witness :
    (confirmHandler (fun _ => some 0) "user_1"
        ⟨some "sess-9", some "2025-07-01T09:00:00Z", false⟩ true emptyDB).1
      = .declined :=
  (decline_succeeds_without_transcript (fun _ => some 0) "user_1"
      ⟨some "sess-9", some "2025-07-01T09:00:00Z", false⟩ true emptyDB 0
      rfl rfl rfl rfl).1

/-! ### C8 — a token presented by a second identity reuses the old session -/

/-- C8 counterexample: user 2 presents the token of the session owned by
user 1; `ensureSession` returns the existing session (id 1, still bound to
user 1) and leaves the store unchanged — no fresh session row owned by user 2
is created, contradicting the claim. -/
theorem session_rebinding_counterexample :
    ensureSession 2 (some "tok-1") dbTwoUsers = (some 1, dbTwoUsers) ∧
    ∀ s ∈ (ensureSession 2 (some "tok-1") dbTwoUsers).2.sessions, s.userId ≠ 2 := by
  refine ⟨rfl, ?_⟩
  decide

/-- C8 amended: a session token already present in the store and later
presented by a different authenticated identity is not rejected, but neither
is a fresh session created: `ensureSession` returns the id of the existing
session row — which stays bound to the user that first created it — and
leaves the store unchanged. -/
theorem session_token_reused_across_users (userId2 : Nat) (tok : String)
    (db : DB) (s : SessionRow)
    (ht : (tok != "") = true)
    (hfind : db.sessions.find? (fun r => r.token == tok) = some s) :
    ensureSession userId2 (some tok) db = (some s.id, db) := by
  unfold ensureSession
  simp [strTruthy, ht, hfind]

/-- Witness for `session_token_reused_across_users` on the two-user store. -/
theorem session_token_reused_across_users_witness :
    ensureSession 2 (some "tok-1") dbTwoUsers = (some 1, dbTwoUsers) :=
  session_token_reused_across_users 2 "tok-1" dbTwoUsers ⟨1, 1, "tok-1"⟩ rfl rfl

/-! ### C1 — an insert-time storage failure surfaces as 500, not Conflict -/

/-- C1 counterexample: a concrete run in which the pre-check passes (the
store holds no appointment at the slot) and the appointment INSERT then
raises; the handler answers with the generic 500 `server_error`, not with the
409 Conflict outcome the claim requires. -/
theorem insert_failure_counterexample :
    conflictCheck emptyDB "2025-06-02T10:00:00Z" = false ∧
    (confirmHandler (fun _ => some 0) "user_1"
        ⟨some "sess-1", some "2025-06-02T10:00:00Z", true⟩ true emptyDB).1
      = .serverError ∧
    (confirmHandler (fun _ => some 0) "user_1"
        ⟨some "sess-1", some "2025-06-02T10:00:00Z", true⟩ true emptyDB).1
      ≠ .conflict := by
  refine ⟨rfl, rfl, ?_⟩
  decide

/-- C1 amended: when the pre-check finds no confirmed appointment at the slot
but the appointment INSERT raises a storage-level error (such as the partial
unique index rejecting the row), the handler's outer catch produces the
generic 500 `server_error` response — never the 409 Conflict outcome, which
only the pre-check produces — and no appointment row is written. -/
theorem insert_failure_yields_server_error
    (dateParse : String → Option Int) (sub : String) (req : ConfirmReq)
    (db : DB) (t : Int)
    (hsid : strTruthy req.session_id = true)
    (hsat : strTruthy req.scheduled_at = true)
    (hp : dateParse (req.scheduled_at.getD "") = some t)
    (hc : req.confirm = true)
    (hpre : conflictCheck db (req.scheduled_at.getD "") = false) :
    (confirmHandler dateParse sub req true db).1 = .serverError ∧
    (confirmHandler dateParse sub req true db).2.appointments = db.appointments := by
  have hdb2 : ((ensureSession (upsertUser sub db).1 req.session_id
      (upsertUser sub db).2).2).appointments = db.appointments :=
    (ensureSession_appointments _ _ _).trans (upsertUser_appointments _ _)
  have hpre2 : conflictCheck ((ensureSession (upsertUser sub db).1 req.session_id
      (upsertUser sub db).2).2) (req.scheduled_at.getD "") = false :=
    (conflictCheck_congr _ hdb2).trans hpre
  have heq : confirmHandler dateParse sub req true db
      = (.serverError,
         (ensureSession (upsertUser sub db).1 req.session_id (upsertUser sub db).2).2) := by
    unfold confirmHandler
    simp [hsid, hsat, hp, hc, hpre2]
  rw [heq]
  exact ⟨rfl, hdb2⟩

/-- Witness for `insert_failure_yields_server_error` at a concrete request. -/
theorem insert_failure_yields_server_error_witness :
    (confirmHandler (fun _ => some 0) "user_1"
        ⟨some "sess-1", some "2025-06-02T10:00:00Z", true⟩ true emptyDB).1
      = .serverError :=
  (insert_failure_yields_server_error (fun _ => some 0) "user_1"
      ⟨some "sess-1", some "2025-06-02T10:00:00Z", true⟩ emptyDB 0
      rfl rfl rfl rfl rfl).1

/-! ### C4 — interpreter failure: inbound kept, but no degraded reply -/

/-- C4 counterexample: with the interpreter unreachable, the handler persists
the inbound user message and nothing else — no synthesized degraded assistant
message is persisted, contradicting the claim — and answers 500. -/
theorem message_interp_failure_counterexample :
    (messageHandler "user_1" ⟨some "book me Monday 10am", some "sess-1"⟩
        .threw emptyDB).1 = .serverError ∧
    ((messageHandler "user_1" ⟨some "book me Monday 10am", some "sess-1"⟩
        .threw emptyDB).2.messages.map MessageRow.role) = ["user"] := by
  constructor <;> rfl

/-- C4 amended: when the interpreter call throws (unreachable, timeout, or a
non-JSON body), the inbound user message has already been persisted — it is
never lost — and is the only row appended; no degraded assistant message is
synthesized, and the handler returns the generic 500 response. -/
theorem message_interp_failure_keeps_inbound
    (sub : String) (req : MessageReq) (db : DB)
    (hm : strTruthy req.message = true) :
    (messageHandler sub req .threw db).1 = .serverError ∧
    (messageHandler sub req .threw db).2.messages
      = db.messages
        ++ [⟨(upsertUser sub db).1, req.session_id, "user", req.message.getD "", .empty⟩] := by
  have heq : messageHandler sub req .threw db
      = (.serverError,
         logMessage (upsertUser sub db).1 req.session_id "user" (req.message.getD "")
           .empty
           (ensureSession (upsertUser sub db).1 req.session_id (upsertUser sub db).2).2) := by
    unfold messageHandler
    simp [hm]
  rw [heq]
  refine ⟨rfl, ?_⟩
  show ((ensureSession (upsertUser sub db).1 req.session_id
      (upsertUser sub db).2).2).messages ++ _ = _
  rw [(ensureSession_messages _ _ _).trans (upsertUser_messages _ _)]

/-- Witness for `message_interp_failure_keeps_inbound` at a concrete call. -/
theorem message_interp_failure_keeps_inbound_witness :
    (messageHandler "user_1" ⟨some "hello", some "sess-1"⟩ .threw emptyDB).1
      = .serverError :=
  (message_interp_failure_keeps_inbound "user_1" ⟨some "hello", some "sess-1"⟩
      emptyDB rfl).1

/-! ### Helper lemmas about `upsertUser` -/

theorem upsertUser_eq_of_find?_none (sub : String) (db : DB)
    (hfind : db.users.find? (fun u => u.email == sub ++ "@demo.local") = none) :
    upsertUser sub db
      = (db.nextUserId,
         { db with
             users := db.users ++ [⟨db.nextUserId, sub ++ "@demo.local", "Demo User"⟩],
             nextUserId := db.nextUserId + 1 }) := by
  unfold upsertUser
  dsimp only
  rw [hfind]

theorem upsertUser_eq_of_find?_some (sub : String) (db : DB) (u : UserRow)
    (hfind : db.users.find? (fun r => r.email == sub ++ "@demo.local") = some u) :
    upsertUser sub db
      = (u.id,
         { db with users := db.users.map (fun r =>
             if r.email == sub ++ "@demo.local" then { r with name := "Demo User" }
             else r) }) := by
  unfold upsertUser
  dsimp only
  rw [hfind]

theorem nameUpdate_preserves_email (email : String) (r : UserRow) :
    ((if r.email == email then { r with name := "Demo User" } else r) : UserRow).email
      = r.email := by
  split <;> rfl

theorem emailPred_comp (email : String) :
    ((fun u => u.email == email) ∘ fun r =>
        if r.email == email then { r with name := "Demo User" } else r)
      = (fun u : UserRow => u.email == email) := by
  funext r
  show (((if r.email == email then { r with name := "Demo User" } else r) : UserRow).email
      == email) = (r.email == email)
  rw [nameUpdate_preserves_email]

theorem find?_nameUpdate (email : String) (l : List UserRow) :
    (l.map (fun r => if r.email == email then { r with name := "Demo User" } else r)).find?
        (fun u => u.email == email)
      = (l.find? (fun u => u.email == email)).map
          (fun r => if r.email == email then { r with name := "Demo User" } else r) := by
  rw [List.find?_map, emailPred_comp]

theorem countP_nameUpdate (email : String) (l : List UserRow) :
    (l.map (fun r => if r.email == email then { r with name := "Demo User" } else r)).countP
        (fun u => u.email == email)
      = l.countP (fun u => u.email == email) := by
  rw [List.countP_map, emailPred_comp]

/-- After one upsert starting from a store respecting the UNIQUE(email)
constraint, exactly one user row holds the derived email. -/
theorem upsertUser_email_count (sub : String) (db : DB)
    (huniq : (db.users.filter (fun u => u.email == sub ++ "@demo.local")).length ≤ 1) :
    ((upsertUser sub db).2.users.filter
        (fun u => u.email == sub ++ "@demo.local")).length = 1 := by
  cases hfind : db.users.find? (fun u => u.email == sub ++ "@demo.local") with
  | none =>
      rw [upsertUser_eq_of_find?_none sub db hfind]
      dsimp only
      rw [List.filter_append]
      have h0 : db.users.filter (fun u => u.email == sub ++ "@demo.local") = [] := by
        rw [List.filter_eq_nil_iff]
        exact List.find?_eq_none.mp hfind
      rw [h0]
      simp
  | some u =>
      rw [upsertUser_eq_of_find?_some sub db u hfind]
      dsimp only
      rw [← List.countP_eq_length_filter, countP_nameUpdate,
        List.countP_eq_length_filter]
      have hpu : (fun r : UserRow => r.email == sub ++ "@demo.local") u = true :=
        (List.find?_eq_some.mp hfind).1
      have hmem : u ∈ db.users.filter (fun r => r.email == sub ++ "@demo.local") :=
        List.mem_filter.mpr ⟨List.mem_of_find?_eq_some hfind, hpu⟩
      have hpos : 0 < (db.users.filter (fun r => r.email == sub ++ "@demo.local")).length :=
        List.length_pos.mpr (List.ne_nil_of_mem hmem)
      omega

/-- The id returned by a second upsert for the same subject equals the id
returned by the first. -/
theorem upsertUser_id_stable (sub : String) (db : DB) :
    (upsertUser sub (upsertUser sub db).2).1 = (upsertUser sub db).1 := by
  cases hfind : db.users.find? (fun u => u.email == sub ++ "@demo.local") with
  | none =>
      rw [upsertUser_eq_of_find?_none sub db hfind]
      dsimp only
      have h2 : ({ db with
            users := db.users ++ [⟨db.nextUserId, sub ++ "@demo.local", "Demo User"⟩],
            nextUserId := db.nextUserId + 1 } : DB).users.find?
            (fun u => u.email == sub ++ "@demo.local")
          = some ⟨db.nextUserId, sub ++ "@demo.local", "Demo User"⟩ := by
        dsimp only
        rw [List.find?_append, hfind]
        simp
      rw [upsertUser_eq_of_find?_some _ _ _ h2]
  | some u =>
      rw [upsertUser_eq_of_find?_some sub db u hfind]
      dsimp only
      have h2 : ({ db with users := db.users.map (fun r =>
            if r.email == sub ++ "@demo.local" then { r with name := "Demo User" }
            else r) } : DB).users.find? (fun u => u.email == sub ++ "@demo.local")
          = some (if u.email == sub ++ "@demo.local" then { u with name := "Demo User" }
              else u) := by
        dsimp only
        rw [find?_nameUpdate, hfind]
        rfl
      rw [upsertUser_eq_of_find?_some _ _ _ h2]
      show (if u.email == sub ++ "@demo.local" then { u with name := "Demo User" }
          else u : UserRow).id = u.id
      split <;> rfl

/-! ### C7 — ensureUser is idempotent -/

/-- C7: for a store respecting the UNIQUE(email) constraint, two upserts with
the same subject claim return the same user id and leave exactly one user row
holding the identity derived from that claim. -/
theorem ensureUser_idempotent (sub : String) (db : DB)
    (huniq : (db.users.filter (fun u => u.email == sub ++ "@demo.local")).length ≤ 1) :
    (upsertUser sub (upsertUser sub db).2).1 = (upsertUser sub db).1 ∧
    ((upsertUser sub (upsertUser sub db).2).2.users.filter
        (fun u => u.email == sub ++ "@demo.local")).length = 1 := by
  refine ⟨upsertUser_id_stable sub db, ?_⟩
  exact upsertUser_email_count sub (upsertUser sub db).2
    (upsertUser_email_count sub db huniq).le

/-- Witness for `ensureUser_idempotent` starting from the fresh store. -/
theorem ensureUser_idempotent_witness :
    (upsertUser "user_1" (upsertUser "user_1" emptyDB).2).1
      = (upsertUser "user_1" emptyDB).1 :=
  (ensureUser_idempotent "user_1" emptyDB (by decide)).1

/-! ### Helper lemmas about the uniqueness invariant -/

theorem confirmedAtL_nil_of_any_false (l : List ApptRow) (s : String)
    (h : l.any (fun a => a.scheduledAt == s && a.status == "confirmed") = false) :
    confirmedAtL l s = [] := by
  unfold confirmedAtL
  rw [List.filter_eq_nil_iff]
  intro a ha
  exact List.any_eq_false.mp h a ha

/-- Appending one confirmed row at a slot that held no confirmed row keeps
the at-most-one-per-slot invariant. -/
theorem atMostOneL_append_new (l : List ApptRow) (row : ApptRow)
    (hinv : atMostOneConfirmedL l)
    (hemp : confirmedAtL l row.scheduledAt = []) :
    atMostOneConfirmedL (l ++ [row]) := by
  intro s
  unfold confirmedAtL at *
  rw [List.filter_append]
  by_cases h : (row.scheduledAt == s && row.status == "confirmed") = true
  · have hs : row.scheduledAt = s := eq_of_beq (Bool.and_eq_true .. ▸ h).1
    have h0 : l.filter (fun a => a.scheduledAt == s && a.status == "confirmed") = [] := by
      rw [← hs]; exact hemp
    rw [h0]
    simp [h]
  · rw [show ([row].filter (fun a => a.scheduledAt == s && a.status == "confirmed")) = []
        from by simp [Bool.eq_false_iff.mpr h]]
    simpa using hinv s

theorem conflictCheck_of_mem {db : DB} {row : ApptRow} {s : String}
    (hm : row ∈ db.appointments)
    (h1 : row.scheduledAt = s) (h2 : row.status = "confirmed") :
    conflictCheck db s = true := by
  unfold conflictCheck
  rw [List.any_eq_true]
  refine ⟨row, hm, ?_⟩
  rw [h1, h2]
  simp

/-- Shared shape of the conflict branch: with valid fields, `confirm` truthy
and a confirmed appointment already at the slot, the handler answers 409 and
writes nothing beyond the user upsert and session ensure. -/
theorem confirmHandler_conflict_eq (dateParse : String → Option Int)
    (sub : String) (req : ConfirmReq) (insertThrows : Bool) (db : DB) (t : Int)
    (hsid : strTruthy req.session_id = true)
    (hsat : strTruthy req.scheduled_at = true)
    (hp : dateParse (req.scheduled_at.getD "") = some t)
    (hc : req.confirm = true)
    (hcc : conflictCheck db (req.scheduled_at.getD "") = true) :
    confirmHandler dateParse sub req insertThrows db
      = (.conflict,
         (ensureSession (upsertUser sub db).1 req.session_id (upsertUser sub db).2).2) := by
  have hcc2 : conflictCheck ((ensureSession (upsertUser sub db).1 req.session_id
      (upsertUser sub db).2).2) (req.scheduled_at.getD "") = true := by
    rw [conflictCheck_congr _
      ((ensureSession_appointments _ _ _).trans (upsertUser_appointments _ _))]
    exact hcc
  unfold confirmHandler
  simp [hsid, hsat, hp, hc, hcc2]

/-- Inversion of a successful confirm: the request was fully validated, the
pre-check found no confirmed appointment at the slot, and the resulting store
appends exactly one confirmed row at the slot. -/
theorem confirmHandler_confirmed_inv
    {dateParse : String → Option Int} {sub : String} {req : ConfirmReq}
    {insertThrows : Bool} {db : DB} {i : Nat} {db1 : DB}
    (h : confirmHandler dateParse sub req insertThrows db = (.confirmed i, db1)) :
    strTruthy req.session_id = true ∧
    strTruthy req.scheduled_at = true ∧
    (∃ t, dateParse (req.scheduled_at.getD "") = some t) ∧
    conflictCheck db (req.scheduled_at.getD "") = false ∧
    ∃ uid aid,
      db1.appointments
        = db.appointments
          ++ [⟨aid, uid, req.scheduled_at.getD "", "confirmed", "Booked via chatbot"⟩] := by
  unfold confirmHandler at h
  split at h
  · simp at h
  · next hcond =>
    have hfields : strTruthy req.session_id = true ∧ strTruthy req.scheduled_at = true := by
      constructor <;> [skip; skip] <;>
        · revert hcond
          cases strTruthy req.session_id <;> cases strTruthy req.scheduled_at <;> simp
    dsimp only at h
    split at h
    · simp at h
    · next t hp =>
      split at h
      · simp at h
      · split at h
        · simp at h
        · next hcc =>
          split at h
          · simp at h
          · rw [Prod.mk.injEq] at h
            obtain ⟨hi, hdb1⟩ := h
            refine ⟨hfields.1, hfields.2, ⟨t, hp⟩, ?_, ?_⟩
            · have := Bool.eq_false_iff.mpr hcc
              rw [conflictCheck_congr _
                ((ensureSession_appointments _ _ _).trans (upsertUser_appointments _ _))] at this
              exact this
            · refine ⟨(upsertUser sub db).1,
                ((ensureSession (upsertUser sub db).1 req.session_id
                  (upsertUser sub db).2).2).nextApptId, ?_⟩
              rw [← hdb1]
              show ((ensureSession (upsertUser sub db).1 req.session_id
                  (upsertUser sub db).2).2).appointments ++ _ = _
              rw [(ensureSession_appointments _ _ _).trans (upsertUser_appointments _ _)]

/-- The handler preserves the at-most-one-confirmed-per-slot invariant. -/
theorem confirmHandler_preserves_invariant
    (dateParse : String → Option Int) (sub : String) (req : ConfirmReq)
    (insertThrows : Bool) (db : DB) (hinv : atMostOneConfirmed db) :
    atMostOneConfirmed (confirmHandler dateParse sub req insertThrows db).2 := by
  have hframe : ((ensureSession (upsertUser sub db).1 req.session_id
      (upsertUser sub db).2).2).appointments = db.appointments :=
    (ensureSession_appointments _ _ _).trans (upsertUser_appointments _ _)
  unfold confirmHandler
  split
  · exact hinv
  · dsimp only
    split
    · exact hinv
    · split
      · unfold atMostOneConfirmed
        rw [hframe]
        exact hinv
      · split
        · unfold atMostOneConfirmed
          rw [hframe]
          exact hinv
        · next hcc =>
          split
          · unfold atMostOneConfirmed
            rw [hframe]
            exact hinv
          · unfold atMostOneConfirmed
            dsimp only [logMessage]
            apply atMostOneL_append_new
            · rw [hframe]
              exact hinv
            · show confirmedAtL ((ensureSession (upsertUser sub db).1 req.session_id
                  (upsertUser sub db).2).2).appointments (req.scheduled_at.getD "") = []
              rw [hframe]
              apply confirmedAtL_nil_of_any_false
              have := Bool.eq_false_iff.mpr hcc
              rw [conflictCheck_congr _ hframe] at this
              exact this

/-! ### C2 — at most one confirmed appointment per slot, globally -/

/-- C2: from any store satisfying the invariant, a confirm call preserves it
— at most one confirmed appointment ever exists per scheduled timestamp,
across users — and concretely, when a confirm for a slot succeeds, any
subsequent confirm for the same slot (any user, any session) returns the 409
Conflict outcome and leaves the appointment rows unchanged. -/
theorem confirm_global_slot_uniqueness
    (dateParse : String → Option Int) (sub : String) (req : ConfirmReq)
    (insertThrows : Bool) (db : DB) (hinv : atMostOneConfirmed db) :
    atMostOneConfirmed (confirmHandler dateParse sub req insertThrows db).2 ∧
    (∀ subB sidB itB i db1,
      confirmHandler dateParse sub req insertThrows db = (.confirmed i, db1) →
      strTruthy sidB = true →
      (confirmHandler dateParse subB ⟨sidB, req.scheduled_at, true⟩ itB db1).1
          = .conflict ∧
      (confirmHandler dateParse subB ⟨sidB, req.scheduled_at, true⟩ itB db1).2.appointments
          = db1.appointments) := by
  refine ⟨confirmHandler_preserves_invariant dateParse sub req insertThrows db hinv, ?_⟩
  intro subB sidB itB i db1 h hB
  obtain ⟨hsid, hsat, ⟨t, hp⟩, hpre, uid, aid, happts⟩ := confirmHandler_confirmed_inv h
  have hmem : (⟨aid, uid, req.scheduled_at.getD "", "confirmed", "Booked via chatbot"⟩ :
      ApptRow) ∈ db1.appointments := by
    rw [happts]
    exact List.mem_append_right _ (List.mem_singleton_self _)
  have hcc : conflictCheck db1 (req.scheduled_at.getD "") = true :=
    conflictCheck_of_mem hmem rfl rfl
  have heq := confirmHandler_conflict_eq dateParse subB ⟨sidB, req.scheduled_at, true⟩
    itB db1 t hB hsat hp rfl hcc
  rw [heq]
  exact ⟨rfl, (ensureSession_appointments _ _ _).trans (upsertUser_appointments _ _)⟩

/-- Witness for `confirm_global_slot_uniqueness` from the fresh store. -/
theorem confirm_global_slot_uniqueness_witness :
    atMostOneConfirmed (confirmHandler (fun _ => some 0) "user_1"
        ⟨some "sess-1", some "2025-06-02T10:00:00Z", true⟩ false emptyDB).2 :=
  (confirm_global_slot_uniqueness (fun _ => some 0) "user_1"
      ⟨some "sess-1", some "2025-06-02T10:00:00Z", true⟩ false emptyDB
      (fun s => by simp [confirmedAtL, emptyDB])).1

end DentalChatbot
